import Mathlib

/-!
Shallow embedding of `src/Loader.cpp` (a one-shot shader compile/link
diagnostic tool) and verification of its specification claims.

Modelling conventions:
* File contents and C++ `std::string` values read from disk are `List Char`;
  fixed message strings are Lean `String`s.
* The OpenGL / GLFW backend is an oracle: every value the program queries
  from the backend (`glGetError` results, info-log lengths and texts,
  compile/link status flags, created handles) is a field of a record
  supplied as input, and every call the program makes into the backend is
  recorded as an event.
* `assert(!error())` failing (an abnormal program condition) is modelled as
  the run producing exit code `none`; a normal `return n` produces `some n`.
-/

/-- Observable actions of the program: writes to standard output and
standard error, and the backend calls that submit, compile, attach, link,
release or tear down resources. -/
inductive Event where
  | out : String → Event
  | err : String → Event
  | shaderSource : Nat → Nat → Event
  | compileCall : Nat → Event
  | attachShader : Nat → Nat → Event
  | linkCall : Nat → Event
  | deleteShader : Nat → Event
  | deleteProgram : Nat → Event
  | makeCurrent : Bool → Event
  | destroyWindow : Event
  | glfwEnd : Event
  deriving DecidableEq, Repr

/-- Result of one run of `main` (or of a suffix of it): the ordered list of
observable events, and the exit code — `some n` for `return n`, `none` when
an `assert(!error())` fired and aborted the process. -/
structure Run where
  events : List Event
  exitCode : Option Int
  deriving DecidableEq, Repr

/-- Prepend the events of an already-executed prefix to a continuation run. -/
def seqRun (evs : List Event) (r : Run) : Run :=
  { events := evs ++ r.events, exitCode := r.exitCode }

/-! ## Source loader (`readFileAsStdListOfStrings`, Loader.cpp lines 14-23) -/

/-- The `while (std::getline(in, string))` loop: split the file content into
lines. `getline` fails immediately at end of file (so empty content yields
no lines), otherwise it reads up to and consuming a terminating newline, or
up to end of file for a final unterminated line. Lines are returned without
their terminator, exactly as `std::getline` stores them. -/
def readLines : List Char → List (List Char)
  | [] => []
  | c :: cs =>
    if c = '\n' then [] :: readLines cs
    else
      match readLines cs with
      | [] => [[c]]
      | l :: ls => (c :: l) :: ls

/-- The loop body `result.emplace_back(string + "\n")`: each line read by
`getline` gets a newline appended before being stored. -/
def linesOf (content : List Char) : List (List Char) :=
  (readLines content).map (fun l => l ++ ['\n'])

/-- `readFileAsStdListOfStrings`: open the file (the filesystem is modelled
as a map from names to optional contents; `none` means the open fails), and
on success run the `getline` loop. -/
def readFileAsStdListOfStrings (files : String → Option (List Char))
    (fileName : String) : Option (List (List Char)) :=
  match files fileName with
  | none => none
  | some content => some (linesOf content)

/-! ## Backend error inspection (`getErrorMessage` / `error`, lines 25-62) -/

def GL_NO_ERROR : Nat := 0
def GL_INVALID_ENUM : Nat := 0x0500
def GL_INVALID_VALUE : Nat := 0x0501
def GL_INVALID_OPERATION : Nat := 0x0502
def GL_STACK_OVERFLOW : Nat := 0x0503
def GL_STACK_UNDERFLOW : Nat := 0x0504
def GL_OUT_OF_MEMORY : Nat := 0x0505
def GL_INVALID_FRAMEBUFFER_OPERATION : Nat := 0x0506

/-- The fixed `std::map<GLenum, std::string> errorStrings` table of
Loader.cpp lines 32-41, as an association list. -/
def errorStrings : List (Nat × String) :=
  [ (GL_NO_ERROR, "No error has been recorded. THIS message is the error itself."),
    (GL_INVALID_ENUM, "An unacceptable value is specified for an enumerated argument."),
    (GL_INVALID_VALUE, "A numeric argument is out of range."),
    (GL_INVALID_OPERATION, "The specified operation is not allowed in the current state."),
    (GL_INVALID_FRAMEBUFFER_OPERATION, "The framebuffer object is not complete."),
    (GL_OUT_OF_MEMORY, "There is not enough memory left to execute the command."),
    (GL_STACK_UNDERFLOW, "An attempt has been made to perform an operation that would cause an internal stack to underflow."),
    (GL_STACK_OVERFLOW, "An attempt has been made to perform an operation that would cause an internal stack to overflow.") ]

/-- `getErrorMessage` (lines 25-54). The pending `glGetError` value is the
oracle argument `code`. Returns `""` for `GL_NO_ERROR`; otherwise builds
the two-line message, falling back to "No description available." for a
code absent from the table. -/
def getErrorMessage (code : Nat) : String :=
  if code = GL_NO_ERROR then ""
  else
    "OpenGL error: " ++ toString code ++ "\n" ++ "Error string: " ++
      (match errorStrings.lookup code with
       | some s => s
       | none => "No description available. Incompatible OpenGL version?") ++ "\n"

/-- `error` (lines 56-62): returns `false` when the message is empty,
otherwise writes the message to standard error and returns `true`. The
second component is the list of emitted events. -/
def error (code : Nat) : Bool × List Event :=
  let message := getErrorMessage code
  if message.length = 0 then (false, [])
  else (true, [Event.err message])

/-! ## Shader compilation (`compileShader`, Loader.cpp lines 64-88) -/

/-- Backend oracle for one compiler unit: the `glGetError` values pending
after `glShaderSource` and after `glCompileShader`, and the values the
backend returns for the `GL_INFO_LOG_LENGTH`, `glGetShaderInfoLog` and
`GL_COMPILE_STATUS` queries. -/
structure ShaderUnit where
  errAfterSource : Nat
  errAfterCompile : Nat
  infoLogLength : Int
  infoLog : String
  compileStatus : Int
  deriving DecidableEq, Repr

/-- The info-log dump shared by `compileShader` (lines 75-83) and the link
stage of `main` (lines 172-182): if the queried log length is positive,
print "Log: " and the retrieved log to standard output. -/
def logDump (logLength : Int) (log : String) : List Event :=
  if logLength > 0 then [Event.out "Log: \n", Event.out log] else []

/-- `compileShader` (lines 64-88): submit all source lines via
`glShaderSource` (the pointer vector has one entry per line, so the count
passed is the line count), `assert(!error())`, trigger `glCompileShader`,
`assert(!error())`, dump the info log if non-empty, then query
`GL_COMPILE_STATUS` and return `bool(compileStatus)`. Result: the emitted
events, and `none` when an assert aborted, otherwise `some` of the
returned boolean. -/
def compileShader (shader : Nat) (source : List (List Char))
    (u : ShaderUnit) : List Event × Option Bool :=
  let ev0 := [Event.shaderSource shader source.length]
  let r1 := error u.errAfterSource
  if r1.1 then (ev0 ++ r1.2, none)
  else
    let ev1 := ev0 ++ r1.2 ++ [Event.compileCall shader]
    let r2 := error u.errAfterCompile
    if r2.1 then (ev1 ++ r2.2, none)
    else
      (ev1 ++ r2.2 ++ logDump u.infoLogLength u.infoLog,
       some (u.compileStatus != 0))

/-! ## `main` (Loader.cpp lines 90-200) -/

/-- Backend and environment oracle for one run of `main`: results of the
GLFW/GLEW bootstrap calls, the filesystem, the handles returned by the
three object creations, the pending `glGetError` values after each call
followed by `assert(!error())` in `main`, the per-unit compile oracles, and
the program-level log and link-status query results. -/
structure World where
  glfwInitOk : Bool
  windowOk : Bool
  glewOk : Bool
  maxVectors : Int
  files : String → Option (List Char)
  vsHandle : Nat
  errAfterCreateVs : Nat
  fsHandle : Nat
  errAfterCreateFs : Nat
  vsUnit : ShaderUnit
  fsUnit : ShaderUnit
  programHandle : Nat
  errAfterCreateProgram : Nat
  errAfterAttachVs : Nat
  errAfterAttachFs : Nat
  errAfterLink : Nat
  progLogLength : Int
  progLog : String
  linkStatus : Int
  errAfterLinkCheck : Nat

/-- Lines 190-199 of `main`: the teardown reached only after a successful
link. Deletes the two shader handles, prints "Finishing...", deletes the
program handle — note the source calls `glDeleteShader(program)` here —
unbinds the context, destroys the window, terminates GLFW and returns 0. -/
def shutdownStage (w : World) : Run :=
  { events :=
      [ Event.deleteShader w.vsHandle, Event.deleteShader w.fsHandle,
        Event.out "Finishing...\n", Event.deleteShader w.programHandle,
        Event.makeCurrent false, Event.destroyWindow, Event.glfwEnd ],
    exitCode := some 0 }

/-- Lines 158-199 of `main`: create the program object (exit 2 when the
handle is 0), `assert(!error())`, attach both shaders and link — each call
followed by `assert(!error())` — dump the program info log if non-empty,
exit 2 when `GL_LINK_STATUS` is 0, `assert(!error())`, then tear down. -/
def linkStage (w : World) : Run :=
  if w.programHandle = 0 then
    { events := [Event.err "Error: program is 0.\n"], exitCode := some 2 }
  else
    let r1 := error w.errAfterCreateProgram
    if r1.1 then { events := r1.2, exitCode := none }
    else seqRun (r1.2 ++ [Event.attachShader w.programHandle w.vsHandle])
      (let r2 := error w.errAfterAttachVs
       if r2.1 then { events := r2.2, exitCode := none }
       else seqRun (r2.2 ++ [Event.attachShader w.programHandle w.fsHandle])
         (let r3 := error w.errAfterAttachFs
          if r3.1 then { events := r3.2, exitCode := none }
          else seqRun (r3.2 ++ [Event.linkCall w.programHandle])
            (let r4 := error w.errAfterLink
             if r4.1 then { events := r4.2, exitCode := none }
             else seqRun (r4.2 ++ logDump w.progLogLength w.progLog)
               (if w.linkStatus = 0 then
                  { events := [Event.err "Error: could not link.\n"],
                    exitCode := some 2 }
                else
                  let r5 := error w.errAfterLinkCheck
                  if r5.1 then { events := r5.2, exitCode := none }
                  else seqRun r5.2 (shutdownStage w)))))

/-- Lines 145-156 of `main`: compile the vertex shader then the fragment
shader, printing a progress line before each; a `false` result exits with
code 5 after an error line; an aborted `compileShader` aborts `main`. On
success, fall through to the link stage. -/
def compileStages (w : World) (vsrc fsrc : List (List Char)) : Run :=
  seqRun [Event.out "Compiling vertex shader...\n"]
    (match compileShader w.vsHandle vsrc w.vsUnit with
     | (evs, none) => { events := evs, exitCode := none }
     | (evs, some ok) =>
       if !ok then
         { events := evs ++ [Event.err "Error: could not compile vertex shader.\n"],
           exitCode := some 5 }
       else seqRun (evs ++ [Event.out "Compiling fragment shader...\n"])
         (match compileShader w.fsHandle fsrc w.fsUnit with
          | (evs2, none) => { events := evs2, exitCode := none }
          | (evs2, some ok2) =>
            if !ok2 then
              { events := evs2 ++ [Event.err "Error: could not compile fragment shader.\n"],
                exitCode := some 5 }
            else seqRun evs2 (linkStage w)))

/-- Lines 131-143 of `main`: create the vertex and fragment shader objects;
a 0 handle exits with code 2, and each creation is followed by
`assert(!error())`. On success, fall through to the compile stages. -/
def createShaderStage (w : World) (vsrc fsrc : List (List Char)) : Run :=
  if w.vsHandle = 0 then
    { events := [Event.err "Error: vertex shader is 0.\n"], exitCode := some 2 }
  else
    let r1 := error w.errAfterCreateVs
    if r1.1 then { events := r1.2, exitCode := none }
    else seqRun r1.2
      (if w.fsHandle = 0 then
         { events := [Event.err "Error: fragment shader is 0.\n"], exitCode := some 2 }
       else
         let r2 := error w.errAfterCreateFs
         if r2.1 then { events := r2.2, exitCode := none }
         else seqRun r2.2 (compileStages w vsrc fsrc))

/-- Lines 118-129 of `main`: read the two hard-coded source files; a failed
vertex read exits with code 4, a failed fragment read with code 5. On
success, fall through to shader creation. -/
def loadStage (w : World) : Run :=
  seqRun [Event.out "Loading shader sources...\n"]
    (match readFileAsStdListOfStrings w.files "Shader.vert",
           readFileAsStdListOfStrings w.files "Shader.frag" with
     | none, _ =>
       { events := [Event.err "Error: could not load vertex source.\n"],
         exitCode := some 4 }
     | some _, none =>
       { events := [Event.err "Error: could not load fragment source.\n"],
         exitCode := some 5 }
     | some vsrc, some fsrc => createShaderStage w vsrc fsrc)

/-- `main` (lines 90-200): GLFW init (exit 3 on failure), window creation
(exit 1, after `glfwTerminate`), context binding, GLEW init (exit 2, after
`glfwTerminate`), the max-uniform-vectors probe printout, then the load,
create, compile and link stages. -/
def mainRun (w : World) : Run :=
  if !w.glfwInitOk then
    { events := [Event.err "Error: glfw init failed.\n"], exitCode := some 3 }
  else if !w.windowOk then
    { events := [Event.err "Error: window is null.\n", Event.glfwEnd],
      exitCode := some 1 }
  else seqRun [Event.makeCurrent true]
    (if !w.glewOk then
       { events := [Event.err "Error: glew not OK.\n", Event.glfwEnd],
         exitCode := some 2 }
     else seqRun [Event.out ("Max vectors: " ++ toString w.maxVectors ++ "\n")]
       (loadStage w))

/-! ## Spec-side definitions (for refinement-style claims) -/

/-- Modelled from the spec: "concatenating all elements reproduces the
original file content byte-for-byte (modulo original line-ending
normalization)" — the normalization appends the final line terminator when
the (non-empty) content does not already end in one. -/
def normalizeContent (c : List Char) : List Char :=
  if c = [] ∨ c.getLast? = some '\n' then c else c ++ ['\n']

/-- Modelled from the spec: the number N of lines of a text file — one line
per line terminator once the final line is terminated. -/
def specLineCount (c : List Char) : Nat :=
  (normalizeContent c).count '\n'

/-- Modelled from the spec: the §6 exit-code table, ordered by the
documented strict top-to-bottom pipeline (bootstrap, window, extension
loader, vertex file, fragment file, object creation, compile vertex,
compile fragment, program creation, link). -/
def specExitCode (w : World) : Int :=
  if !w.glfwInitOk then 3
  else if !w.windowOk then 1
  else if !w.glewOk then 2
  else if (w.files "Shader.vert").isNone then 4
  else if (w.files "Shader.frag").isNone then 5
  else if w.vsHandle = 0 then 2
  else if w.fsHandle = 0 then 2
  else if w.vsUnit.compileStatus = 0 then 5
  else if w.fsUnit.compileStatus = 0 then 5
  else if w.programHandle = 0 then 2
  else if w.linkStatus = 0 then 2
  else 0

/-- No pending backend error at any of the `assert(!error())` checkpoints:
on such worlds no assert fires and `main` terminates by `return`. -/
def noBackendErrors (w : World) : Prop :=
  w.errAfterCreateVs = GL_NO_ERROR ∧ w.errAfterCreateFs = GL_NO_ERROR ∧
  w.vsUnit.errAfterSource = GL_NO_ERROR ∧ w.vsUnit.errAfterCompile = GL_NO_ERROR ∧
  w.fsUnit.errAfterSource = GL_NO_ERROR ∧ w.fsUnit.errAfterCompile = GL_NO_ERROR ∧
  w.errAfterCreateProgram = GL_NO_ERROR ∧ w.errAfterAttachVs = GL_NO_ERROR ∧
  w.errAfterAttachFs = GL_NO_ERROR ∧ w.errAfterLink = GL_NO_ERROR ∧
  w.errAfterLinkCheck = GL_NO_ERROR

/-- Every documented pipeline stage succeeds: bootstrap, window, extension
loader, both file reads, both object creations, both compiles, program
creation and link. -/
def pipelineOk (w : World) : Prop :=
  w.glfwInitOk = true ∧ w.windowOk = true ∧ w.glewOk = true ∧
  (w.files "Shader.vert").isSome ∧ (w.files "Shader.frag").isSome ∧
  w.vsHandle ≠ 0 ∧ w.fsHandle ≠ 0 ∧
  w.vsUnit.compileStatus ≠ 0 ∧ w.fsUnit.compileStatus ≠ 0 ∧
  w.programHandle ≠ 0 ∧ w.linkStatus ≠ 0

/-- Recognizer for program-release events (`glDeleteProgram` calls). -/
def isDeleteProgram : Event → Bool
  | Event.deleteProgram _ => true
  | _ => false

/-! ## Concrete worlds used as witnesses and counterexamples -/

/-- A compiler-unit oracle with no pending errors, empty log, success status. -/
def unitOk : ShaderUnit :=
  { errAfterSource := 0, errAfterCompile := 0, infoLogLength := 0,
    infoLog := "", compileStatus := 1 }

/-- A compiler-unit oracle with no pending errors, a non-empty info log of
reported length 5, and success status. -/
def unitLogged : ShaderUnit :=
  { errAfterSource := 0, errAfterCompile := 0, infoLogLength := 5,
    infoLog := "warn\n", compileStatus := 1 }

/-- A world in which every stage succeeds: the full pipeline completes. -/
def worldOk : World :=
  { glfwInitOk := true, windowOk := true, glewOk := true, maxVectors := 256,
    files := fun _ => some ['a', '\n'], vsHandle := 1, errAfterCreateVs := 0,
    fsHandle := 2, errAfterCreateFs := 0, vsUnit := unitOk, fsUnit := unitOk,
    programHandle := 3, errAfterCreateProgram := 0, errAfterAttachVs := 0,
    errAfterAttachFs := 0, errAfterLink := 0, progLogLength := 0,
    progLog := "", linkStatus := 1, errAfterLinkCheck := 0 }

/-- `worldOk` except the extension loader fails. -/
def worldGlewFail : World := { worldOk with glewOk := false }

/-- `worldOk` except the link-status flag reports failure. -/
def worldLinkFail : World := { worldOk with linkStatus := 0 }

/-! ## Helper lemmas -/

theorem error_zero : error GL_NO_ERROR = (false, []) := rfl

theorem getErrorMessage_length_pos (code : Nat) (h : code ≠ GL_NO_ERROR) :
    0 < (getErrorMessage code).length := by
  unfold getErrorMessage
  rw [if_neg h]
  simp [String.length_append]
  exact Or.inr (by decide)

theorem error_of_ne (code : Nat) (h : code ≠ GL_NO_ERROR) :
    error code = (true, [Event.err (getErrorMessage code)]) := by
  have hp := getErrorMessage_length_pos code h
  unfold error
  rw [if_neg (by omega)]

theorem readLines_cons (c : Char) (cs : List Char) :
    readLines (c :: cs) =
      if c = '\n' then [] :: readLines cs
      else
        match readLines cs with
        | [] => [[c]]
        | l :: ls => (c :: l) :: ls := rfl

theorem readLines_ne_nil (a : Char) (cs : List Char) :
    readLines (a :: cs) ≠ [] := by
  rw [readLines_cons]
  by_cases h : a = '\n'
  · simp [h]
  · simp only [h, if_false]
    cases readLines cs <;> simp

theorem normalizeContent_cons (a : Char) (cs : List Char) (h : cs ≠ []) :
    normalizeContent (a :: cs) = a :: normalizeContent cs := by
  obtain ⟨b, bs, rfl⟩ := List.exists_cons_of_ne_nil h
  unfold normalizeContent
  rw [List.getLast?_cons_cons]
  by_cases h2 : (b :: bs).getLast? = some '\n' <;> simp [h2]

theorem flatten_linesOf (c : List Char) :
    (linesOf c).flatten = normalizeContent c := by
  induction c with
  | nil => simp [linesOf, readLines, normalizeContent]
  | cons a cs ih =>
    by_cases h : a = '\n'
    · subst h
      have hl : linesOf ('\n' :: cs) = ['\n'] :: linesOf cs := by
        rw [linesOf, readLines_cons]
        simp [linesOf]
      rw [hl, List.flatten_cons, ih]
      cases cs with
      | nil => simp [normalizeContent]
      | cons b bs => rw [normalizeContent_cons '\n' (b :: bs) (by simp)]; rfl
    · cases hrc : readLines cs with
      | nil =>
        have hnil : cs = [] := by
          cases cs with
          | nil => rfl
          | cons b bs => exact absurd hrc (readLines_ne_nil b bs)
        subst hnil
        simp [linesOf, readLines, h, normalizeContent]
      | cons l ls =>
        have hcs : cs ≠ [] := by
          intro hc
          subst hc
          simp [readLines] at hrc
        have hl : linesOf (a :: cs) =
            ((a :: l) ++ ['\n']) :: ls.map (fun x => x ++ ['\n']) := by
          rw [linesOf, readLines_cons]
          simp [h, hrc]
        have hl2 : linesOf cs = (l ++ ['\n']) :: ls.map (fun x => x ++ ['\n']) := by
          rw [linesOf, hrc]
          simp
        rw [hl, List.flatten_cons, normalizeContent_cons _ _ hcs, ← ih, hl2,
          List.flatten_cons]
        simp

theorem length_readLines (c : List Char) :
    (readLines c).length = specLineCount c := by
  induction c with
  | nil => simp [readLines, specLineCount, normalizeContent]
  | cons a cs ih =>
    by_cases h : a = '\n'
    · subst h
      rw [readLines_cons]
      simp only [if_pos rfl, List.length_cons]
      cases cs with
      | nil => simp [readLines, specLineCount, normalizeContent]
      | cons b bs =>
        rw [specLineCount, normalizeContent_cons _ _ (by simp), List.count_cons]
        rw [specLineCount] at ih
        simp [ih]
    · cases hrc : readLines cs with
      | nil =>
        have hnil : cs = [] := by
          cases cs with
          | nil => rfl
          | cons b bs => exact absurd hrc (readLines_ne_nil b bs)
        subst hnil
        rw [readLines_cons]
        simp [h, readLines, specLineCount, normalizeContent]
      | cons l ls =>
        have hcs : cs ≠ [] := by
          intro hc
          subst hc
          simp [readLines] at hrc
        rw [readLines_cons]
        simp only [h, if_false, hrc, List.length_cons]
        rw [specLineCount, normalizeContent_cons _ _ hcs, List.count_cons]
        rw [specLineCount, hrc] at ih
        simp at ih
        simp [ih, h]

theorem getLast_append_newline (xs : List Char) :
    (xs ++ ['\n']).getLast? = some '\n' :=
  List.getLast?_concat xs

theorem compileShader_ok (shader : Nat) (source : List (List Char))
    (u : ShaderUnit) (h1 : u.errAfterSource = GL_NO_ERROR)
    (h2 : u.errAfterCompile = GL_NO_ERROR) :
    compileShader shader source u =
      ([Event.shaderSource shader source.length, Event.compileCall shader] ++
        logDump u.infoLogLength u.infoLog,
       some (u.compileStatus != 0)) := by
  unfold compileShader
  rw [h1, h2, error_zero]
  simp

/-- Claim C1: with no pending backend errors, `compileShader` returns normally and
its result is `true` iff the `GL_COMPILE_STATUS` flag queried after
compilation is non-zero (GL_TRUE, i.e. success). -/
theorem compileShader_true_iff_status (shader : Nat) (source : List (List Char))
    (u : ShaderUnit) (h1 : u.errAfterSource = GL_NO_ERROR)
    (h2 : u.errAfterCompile = GL_NO_ERROR) :
    (compileShader shader source u).2 = some true ↔ u.compileStatus ≠ 0 := by
  rw [compileShader_ok shader source u h1 h2]
  simp

theorem compileShader_true_iff_status_witness :
    unitOk.errAfterSource = GL_NO_ERROR ∧ unitOk.errAfterCompile = GL_NO_ERROR ∧
    ((compileShader 7 [['a']] unitOk).2 = some true ↔ unitOk.compileStatus ≠ 0) :=
  ⟨rfl, rfl, compileShader_true_iff_status 7 [['a']] unitOk rfl rfl⟩

/-- Claim C2: when the retrieved diagnostic log is non-empty (equivalently, the
queried log length is positive, for a well-formed backend), `compileShader`
writes the full log to standard output, it does so whatever the value of
the compile-status flag, and the function still returns normally. -/
theorem compileShader_emits_log (shader : Nat) (source : List (List Char))
    (u : ShaderUnit) (h1 : u.errAfterSource = GL_NO_ERROR)
    (h2 : u.errAfterCompile = GL_NO_ERROR)
    (hwf : 0 < u.infoLogLength ↔ u.infoLog ≠ "") (hne : u.infoLog ≠ "") :
    Event.out u.infoLog ∈ (compileShader shader source u).1 ∧
    (∀ s : Int, (compileShader shader source { u with compileStatus := s }).1 =
      (compileShader shader source u).1) ∧
    (compileShader shader source u).2.isSome := by
  refine ⟨?_, ?_, ?_⟩
  · rw [compileShader_ok shader source u h1 h2]
    simp [logDump, hwf.mpr hne]
  · intro s
    rw [compileShader_ok shader source u h1 h2,
      compileShader_ok shader source { u with compileStatus := s } h1 h2]
  · rw [compileShader_ok shader source u h1 h2]
    simp

theorem compileShader_emits_log_witness :
    unitLogged.errAfterSource = GL_NO_ERROR ∧
    unitLogged.errAfterCompile = GL_NO_ERROR ∧
    (0 < unitLogged.infoLogLength ↔ unitLogged.infoLog ≠ "") ∧
    unitLogged.infoLog ≠ "" ∧
    (Event.out unitLogged.infoLog ∈ (compileShader 7 [['a']] unitLogged).1 ∧
     (∀ s : Int,
        (compileShader 7 [['a']] { unitLogged with compileStatus := s }).1 =
          (compileShader 7 [['a']] unitLogged).1) ∧
     (compileShader 7 [['a']] unitLogged).2.isSome) :=
  ⟨rfl, rfl, by decide, by decide,
   compileShader_emits_log 7 [['a']] unitLogged rfl rfl (by decide) (by decide)⟩

/-- Claim C5: for a file that can be opened, the loader returns a present
sequence with exactly one element per line, each element ending in the line
terminator, whose concatenation reproduces the file content modulo
line-ending normalization; empty content yields a present empty sequence. -/
theorem load_success_spec (files : String → Option (List Char)) (name : String)
    (content : List Char) (h : files name = some content) :
    readFileAsStdListOfStrings files name = some (linesOf content) ∧
    (linesOf content).length = specLineCount content ∧
    (∀ l ∈ linesOf content, l.getLast? = some '\n') ∧
    (linesOf content).flatten = normalizeContent content ∧
    (content = [] → readFileAsStdListOfStrings files name = some []) := by
  refine ⟨?_, ?_, ?_, flatten_linesOf content, ?_⟩
  · rw [readFileAsStdListOfStrings, h]
  · rw [linesOf, List.length_map]
    exact length_readLines content
  · intro l hl
    rw [linesOf] at hl
    obtain ⟨x, _, rfl⟩ := List.mem_map.mp hl
    exact getLast_append_newline x
  · intro hc
    subst hc
    rw [readFileAsStdListOfStrings, h]
    rfl

theorem load_success_spec_witness :
    (fun _ : String => some ['a', '\n', 'b']) "Shader.vert" = some ['a', '\n', 'b'] ∧
    (readFileAsStdListOfStrings (fun _ => some ['a', '\n', 'b']) "Shader.vert" =
       some (linesOf ['a', '\n', 'b']) ∧
     (linesOf ['a', '\n', 'b']).length = specLineCount ['a', '\n', 'b'] ∧
     (∀ l ∈ linesOf ['a', '\n', 'b'], l.getLast? = some '\n') ∧
     (linesOf ['a', '\n', 'b']).flatten = normalizeContent ['a', '\n', 'b'] ∧
     (['a', '\n', 'b'] = ([] : List Char) →
       readFileAsStdListOfStrings (fun _ => some ['a', '\n', 'b']) "Shader.vert" =
         some [])) :=
  ⟨rfl, load_success_spec (fun _ => some ['a', '\n', 'b']) "Shader.vert"
    ['a', '\n', 'b'] rfl⟩

/-- Claim C6: for a path that cannot be opened, the loader returns the absent
result (the embedding is a total function: no exception, no partial data). -/
theorem load_absent (files : String → Option (List Char)) (name : String)
    (h : files name = none) :
    readFileAsStdListOfStrings files name = none := by
  rw [readFileAsStdListOfStrings, h]

theorem load_absent_witness :
    (fun _ : String => (none : Option (List Char))) "missing.vert" = none ∧
    readFileAsStdListOfStrings (fun _ => none) "missing.vert" = none :=
  ⟨rfl, load_absent (fun _ => none) "missing.vert" rfl⟩

/-- Claim C10: the helper `error` returns `false` exactly for `GL_NO_ERROR` (whose message is
empty); for every other code it writes the non-empty message to standard
error and returns `true`, and a code absent from the description table gets
the explicit "No description available" fallback text. -/
theorem error_reports_iff (code : Nat) :
    ((error code).1 = false ↔ code = GL_NO_ERROR) ∧
    (code = GL_NO_ERROR → getErrorMessage code = "") ∧
    (code ≠ GL_NO_ERROR →
      (error code).1 = true ∧ getErrorMessage code ≠ "" ∧
      (error code).2 = [Event.err (getErrorMessage code)]) ∧
    (code ≠ GL_NO_ERROR → errorStrings.lookup code = none →
      getErrorMessage code =
        "OpenGL error: " ++ toString code ++ "\n" ++ "Error string: " ++
          "No description available. Incompatible OpenGL version?" ++ "\n") := by
  refine ⟨?_, ?_, ?_, ?_⟩
  · constructor
    · intro hf
      by_contra hc
      rw [error_of_ne code hc] at hf
      simp at hf
    · intro hz
      rw [hz, error_zero]
  · intro hz
    rw [hz]
    rfl
  · intro hc
    have hp := getErrorMessage_length_pos code hc
    rw [error_of_ne code hc]
    refine ⟨rfl, ?_, rfl⟩
    intro he
    rw [he] at hp
    simp at hp
  · intro hc hl
    unfold getErrorMessage
    rw [if_neg hc, hl]

theorem error_reports_iff_witness :
    ((1 : Nat) ≠ GL_NO_ERROR ∧ (error 1).1 = true) ∧
    ((error GL_NO_ERROR).1 = false ↔ GL_NO_ERROR = GL_NO_ERROR) :=
  ⟨⟨by decide, ((error_reports_iff 1).2.2.1 (by decide)).1⟩,
   (error_reports_iff GL_NO_ERROR).1⟩

theorem seqRun_exitCode (evs : List Event) (r : Run) :
    (seqRun evs r).exitCode = r.exitCode := rfl

theorem linkStage_eq (w : World) (hp : w.programHandle ≠ 0)
    (e1 : w.errAfterCreateProgram = GL_NO_ERROR)
    (e2 : w.errAfterAttachVs = GL_NO_ERROR)
    (e3 : w.errAfterAttachFs = GL_NO_ERROR)
    (e4 : w.errAfterLink = GL_NO_ERROR)
    (e5 : w.errAfterLinkCheck = GL_NO_ERROR) :
    linkStage w =
      { events := [Event.attachShader w.programHandle w.vsHandle,
                   Event.attachShader w.programHandle w.fsHandle,
                   Event.linkCall w.programHandle] ++
                  logDump w.progLogLength w.progLog ++
                  (if w.linkStatus = 0 then [Event.err "Error: could not link.\n"]
                   else (shutdownStage w).events),
        exitCode := if w.linkStatus = 0 then some 2 else some 0 } := by
  unfold linkStage
  rw [if_neg hp]
  simp only [e1, e2, e3, e4, e5, error_zero, seqRun]
  by_cases hl : w.linkStatus = 0 <;> simp [hl, shutdownStage]

theorem linkStage_exit (w : World)
    (e1 : w.errAfterCreateProgram = GL_NO_ERROR)
    (e2 : w.errAfterAttachVs = GL_NO_ERROR)
    (e3 : w.errAfterAttachFs = GL_NO_ERROR)
    (e4 : w.errAfterLink = GL_NO_ERROR)
    (e5 : w.errAfterLinkCheck = GL_NO_ERROR) :
    (linkStage w).exitCode =
      if w.programHandle = 0 then some 2
      else if w.linkStatus = 0 then some 2 else some 0 := by
  by_cases hp : w.programHandle = 0
  · simp [linkStage, hp]
  · rw [linkStage_eq w hp e1 e2 e3 e4 e5, if_neg hp]

theorem compileStages_exit (w : World) (vsrc fsrc : List (List Char))
    (h1 : w.vsUnit.errAfterSource = GL_NO_ERROR)
    (h2 : w.vsUnit.errAfterCompile = GL_NO_ERROR)
    (h3 : w.fsUnit.errAfterSource = GL_NO_ERROR)
    (h4 : w.fsUnit.errAfterCompile = GL_NO_ERROR) :
    (compileStages w vsrc fsrc).exitCode =
      if w.vsUnit.compileStatus = 0 then some 5
      else if w.fsUnit.compileStatus = 0 then some 5
      else (linkStage w).exitCode := by
  unfold compileStages
  rw [compileShader_ok _ _ _ h1 h2, compileShader_ok _ _ _ h3 h4]
  by_cases hv : w.vsUnit.compileStatus = 0 <;>
    by_cases hf : w.fsUnit.compileStatus = 0 <;>
      simp [hv, hf, seqRun]

theorem createShaderStage_exit (w : World) (vsrc fsrc : List (List Char))
    (e1 : w.errAfterCreateVs = GL_NO_ERROR)
    (e2 : w.errAfterCreateFs = GL_NO_ERROR) :
    (createShaderStage w vsrc fsrc).exitCode =
      if w.vsHandle = 0 then some 2
      else if w.fsHandle = 0 then some 2
      else (compileStages w vsrc fsrc).exitCode := by
  unfold createShaderStage
  simp only [e1, e2, error_zero]
  by_cases hv : w.vsHandle = 0 <;> by_cases hf : w.fsHandle = 0 <;>
    simp [hv, hf, seqRun]

theorem loadStage_exit (w : World)
    (e1 : w.errAfterCreateVs = GL_NO_ERROR)
    (e2 : w.errAfterCreateFs = GL_NO_ERROR)
    (h1 : w.vsUnit.errAfterSource = GL_NO_ERROR)
    (h2 : w.vsUnit.errAfterCompile = GL_NO_ERROR)
    (h3 : w.fsUnit.errAfterSource = GL_NO_ERROR)
    (h4 : w.fsUnit.errAfterCompile = GL_NO_ERROR) :
    (loadStage w).exitCode =
      if (w.files "Shader.vert").isNone then some 4
      else if (w.files "Shader.frag").isNone then some 5
      else if w.vsHandle = 0 then some 2
      else if w.fsHandle = 0 then some 2
      else if w.vsUnit.compileStatus = 0 then some 5
      else if w.fsUnit.compileStatus = 0 then some 5
      else (linkStage w).exitCode := by
  unfold loadStage
  rw [seqRun_exitCode]
  cases hv : w.files "Shader.vert" with
  | none => simp [readFileAsStdListOfStrings, hv]
  | some vc =>
    cases hf : w.files "Shader.frag" with
    | none => simp [readFileAsStdListOfStrings, hv, hf]
    | some fc =>
      simp only [readFileAsStdListOfStrings, hv, hf, Option.isNone_some,
        if_false]
      rw [createShaderStage_exit _ _ _ e1 e2,
        compileStages_exit _ _ _ h1 h2 h3 h4]
      simp

theorem mainRun_exit_eq_spec (w : World) (h : noBackendErrors w) :
    (mainRun w).exitCode = some (specExitCode w) := by
  obtain ⟨e1, e2, h1, h2, h3, h4, e7, e8, e9, e10, e11⟩ := h
  unfold mainRun specExitCode
  cases hg : w.glfwInitOk with
  | false => simp
  | true =>
    cases hw : w.windowOk with
    | false => simp
    | true =>
      cases hge : w.glewOk with
      | false => simp [seqRun]
      | true =>
        simp only [Bool.not_true, Bool.false_eq_true, if_false, seqRun_exitCode]
        rw [loadStage_exit w e1 e2 h1 h2 h3 h4,
          linkStage_exit w e7 e8 e9 e10 e11]
        split_ifs <;> rfl

set_option maxHeartbeats 1000000 in
theorem specExitCode_zero_iff (w : World) :
    specExitCode w = 0 ↔ pipelineOk w := by
  unfold specExitCode pipelineOk
  split_ifs with hc1 hc2 hc3 hc4 hc5 hc6 hc7 hc8 hc9 hc10 hc11 <;>
    simp_all [Option.isNone_iff_eq_none, Option.isSome_iff_ne_none]

/-- Claim C3: when the link stage runs with no pending backend errors, both
compiled units are attached to the program object and it is linked; the
program-level log is emitted to output when non-empty; and the run
continues to a successful exit iff the link-status flag is non-zero,
otherwise the stage reports an error and halts with exit code 2. -/
theorem linkStage_spec (w : World) (hp : w.programHandle ≠ 0)
    (e1 : w.errAfterCreateProgram = GL_NO_ERROR)
    (e2 : w.errAfterAttachVs = GL_NO_ERROR)
    (e3 : w.errAfterAttachFs = GL_NO_ERROR)
    (e4 : w.errAfterLink = GL_NO_ERROR)
    (e5 : w.errAfterLinkCheck = GL_NO_ERROR)
    (hwf : 0 < w.progLogLength ↔ w.progLog ≠ "") :
    Event.attachShader w.programHandle w.vsHandle ∈ (linkStage w).events ∧
    Event.attachShader w.programHandle w.fsHandle ∈ (linkStage w).events ∧
    Event.linkCall w.programHandle ∈ (linkStage w).events ∧
    (w.progLog ≠ "" → Event.out w.progLog ∈ (linkStage w).events) ∧
    ((linkStage w).exitCode = some 0 ↔ w.linkStatus ≠ 0) ∧
    (w.linkStatus = 0 →
      (linkStage w).exitCode = some 2 ∧
      Event.err "Error: could not link.\n" ∈ (linkStage w).events) := by
  rw [linkStage_eq w hp e1 e2 e3 e4 e5]
  refine ⟨by simp, by simp, by simp, ?_, ?_, ?_⟩
  · intro hne
    simp [logDump, hwf.mpr hne]
  · by_cases hl : w.linkStatus = 0 <;> simp [hl]
  · intro hl
    simp [hl]

theorem linkStage_spec_witness :
    worldLinkFail.programHandle ≠ 0 ∧
    (0 < worldLinkFail.progLogLength ↔ worldLinkFail.progLog ≠ "") ∧
    (worldLinkFail.linkStatus = 0 →
      (linkStage worldLinkFail).exitCode = some 2 ∧
      Event.err "Error: could not link.\n" ∈ (linkStage worldLinkFail).events) :=
  ⟨by decide, by decide,
   (linkStage_spec worldLinkFail (by decide) rfl rfl rfl rfl rfl
     (by decide)).2.2.2.2.2⟩

/-- Claim C4: on every world with no pending backend error (so that no
`assert(!error())` fires), `main` returns and its exit code is exactly the
documented table value: 0 on full success, 1 for window creation, 2 for
extension loader / object creation / link, 3 for windowing init, 4 for the
vertex source file, 5 for the fragment source file or a failed compile. -/
theorem exit_code_table (w : World) (h : noBackendErrors w) :
    (mainRun w).exitCode = some (specExitCode w) :=
  mainRun_exit_eq_spec w h

theorem exit_code_table_witness :
    noBackendErrors worldGlewFail ∧
    (mainRun worldGlewFail).exitCode = some (specExitCode worldGlewFail) :=
  ⟨⟨rfl, rfl, rfl, rfl, rfl, rfl, rfl, rfl, rfl, rfl, rfl⟩,
   exit_code_table worldGlewFail
     ⟨rfl, rfl, rfl, rfl, rfl, rfl, rfl, rfl, rfl, rfl, rfl⟩⟩

/-- Claim C7, counterexample: extension-loader failure and link failure are two
different documented failure conditions, yet both terminate the process
with exit code 2. -/
theorem shared_exit_code_counterexample :
    worldGlewFail.glewOk = false ∧
    worldLinkFail.glewOk = true ∧ worldLinkFail.linkStatus = 0 ∧
    (mainRun worldGlewFail).exitCode = some 2 ∧
    (mainRun worldLinkFail).exitCode = some 2 := by decide

/-- Claim C7 as amended: on every world with no pending backend error, `main`
exits 0 iff every pipeline stage succeeds; any stage failure halts the
program with a non-zero exit code (but distinct failure conditions may
share a code). -/
theorem failure_halts_nonzero (w : World) (h : noBackendErrors w) :
    ((mainRun w).exitCode = some 0 ↔ pipelineOk w) ∧
    (¬ pipelineOk w → ∃ c, (mainRun w).exitCode = some c ∧ c ≠ 0) := by
  have he := mainRun_exit_eq_spec w h
  constructor
  · rw [he, ← specExitCode_zero_iff w]
    simp
  · intro hno
    refine ⟨specExitCode w, he, ?_⟩
    rw [Ne, specExitCode_zero_iff w]
    exact hno

theorem failure_halts_nonzero_witness :
    noBackendErrors worldLinkFail ∧
    ((mainRun worldLinkFail).exitCode = some 0 ↔ pipelineOk worldLinkFail) ∧
    (¬ pipelineOk worldLinkFail →
      ∃ c, (mainRun worldLinkFail).exitCode = some c ∧ c ≠ 0) :=
  ⟨⟨rfl, rfl, rfl, rfl, rfl, rfl, rfl, rfl, rfl, rfl, rfl⟩,
   failure_halts_nonzero worldLinkFail
     ⟨rfl, rfl, rfl, rfl, rfl, rfl, rfl, rfl, rfl, rfl, rfl⟩⟩

/-- Claim C8: whenever a backend call expected to succeed leaves a pending error
— source submission or compile triggering inside `compileShader`, or
shader/program object creation, attach, or link in `main` — the
corresponding `assert(!error())` fires and the run aborts (exit code
`none`) instead of the error being silently swallowed. -/
theorem pending_backend_error_aborts :
    (∀ (shader : Nat) (source : List (List Char)) (u : ShaderUnit),
      u.errAfterSource ≠ GL_NO_ERROR →
        (compileShader shader source u).2 = none) ∧
    (∀ (shader : Nat) (source : List (List Char)) (u : ShaderUnit),
      u.errAfterCompile ≠ GL_NO_ERROR →
        (compileShader shader source u).2 = none) ∧
    (∀ (w : World) (vsrc fsrc : List (List Char)),
      w.vsHandle ≠ 0 → w.errAfterCreateVs ≠ GL_NO_ERROR →
        (createShaderStage w vsrc fsrc).exitCode = none) ∧
    (∀ (w : World) (vsrc fsrc : List (List Char)),
      w.vsHandle ≠ 0 → w.errAfterCreateVs = GL_NO_ERROR → w.fsHandle ≠ 0 →
      w.errAfterCreateFs ≠ GL_NO_ERROR →
        (createShaderStage w vsrc fsrc).exitCode = none) ∧
    (∀ w : World, w.programHandle ≠ 0 →
      w.errAfterCreateProgram ≠ GL_NO_ERROR → (linkStage w).exitCode = none) ∧
    (∀ w : World, w.programHandle ≠ 0 →
      w.errAfterCreateProgram = GL_NO_ERROR →
      w.errAfterAttachVs ≠ GL_NO_ERROR → (linkStage w).exitCode = none) ∧
    (∀ w : World, w.programHandle ≠ 0 →
      w.errAfterCreateProgram = GL_NO_ERROR →
      w.errAfterAttachVs = GL_NO_ERROR →
      w.errAfterAttachFs ≠ GL_NO_ERROR → (linkStage w).exitCode = none) ∧
    (∀ w : World, w.programHandle ≠ 0 →
      w.errAfterCreateProgram = GL_NO_ERROR →
      w.errAfterAttachVs = GL_NO_ERROR → w.errAfterAttachFs = GL_NO_ERROR →
      w.errAfterLink ≠ GL_NO_ERROR → (linkStage w).exitCode = none) := by
  refine ⟨?_, ?_, ?_, ?_, ?_, ?_, ?_, ?_⟩
  · intro sh src u h
    simp [compileShader, error_of_ne _ h]
  · intro sh src u h
    by_cases h1 : u.errAfterSource = GL_NO_ERROR
    · simp [compileShader, h1, error_zero, error_of_ne _ h]
    · simp [compileShader, error_of_ne _ h1]
  · intro w vsrc fsrc hv h
    simp [createShaderStage, hv, error_of_ne _ h]
  · intro w vsrc fsrc hv h1 hf h
    simp [createShaderStage, hv, h1, error_zero, hf, error_of_ne _ h, seqRun]
  · intro w hp h
    simp [linkStage, hp, error_of_ne _ h]
  · intro w hp h1 h
    simp [linkStage, hp, h1, error_zero, error_of_ne _ h, seqRun]
  · intro w hp h1 h2 h
    simp [linkStage, hp, h1, h2, error_zero, error_of_ne _ h, seqRun]
  · intro w hp h1 h2 h3 h
    simp [linkStage, hp, h1, h2, h3, error_zero, error_of_ne _ h, seqRun]

theorem pending_backend_error_aborts_witness :
    ((⟨GL_INVALID_ENUM, 0, 0, "", 1⟩ : ShaderUnit).errAfterSource ≠ GL_NO_ERROR) ∧
    (compileShader 7 [['a']] ⟨GL_INVALID_ENUM, 0, 0, "", 1⟩).2 = none :=
  ⟨by decide,
   pending_backend_error_aborts.1 7 [['a']] ⟨GL_INVALID_ENUM, 0, 0, "", 1⟩
     (by decide)⟩

/-- Claim C9, observed divergence: on a fully successful run the two shader
handles and the window are each released once with their own release
operations, but the program handle is released via `glDeleteShader` — the
shader release call — and no `glDeleteProgram` call occurs at all. -/
theorem program_released_by_glDeleteShader :
    (mainRun worldOk).exitCode = some 0 ∧
    (mainRun worldOk).events.count (Event.deleteShader worldOk.vsHandle) = 1 ∧
    (mainRun worldOk).events.count (Event.deleteShader worldOk.fsHandle) = 1 ∧
    (mainRun worldOk).events.count Event.destroyWindow = 1 ∧
    (mainRun worldOk).events.count (Event.deleteShader worldOk.programHandle) = 1 ∧
    (mainRun worldOk).events.countP isDeleteProgram = 0 := by decide
